import Mathlib

/-!
# Verification of the klient credential subsystem (src/main.py)

A shallow embedding of the credential-management subsystem of the klient
CLI (src/main.py): the secret keystore (generate_key / load_key), the
credential vault (encrypt_api_key / decrypt_api_key over the Fernet
authenticated-encryption scheme), the key verifier (verify_api_key), the
credential resolver (handle_api_key), and the upload path plus the CLI
command guards (upload, list_files, search).

External effects are made explicit parameters:

* The filesystem is a `World` holding the contents of the two fixed files
  (the SecretKey file and the config file with the encrypted credential).
* The network is an oracle: each HTTP call is given its outcome
  (`HttpOutcome`: a status code plus response text, or a transport-level
  exception) as an argument; the resolver consumes a scripted list of
  outcomes, one per verification call.
* Interactive input is a scripted list of prompt answers; the source loop
  is unbounded, so a run that exhausts the script ends in the `stuck`
  outcome (the real program would keep prompting).
* The Fernet library is modelled symbolically, per its documented
  contract: a token carries a nonce, the enciphered body, and an
  authentication tag binding key, nonce and body; decryption succeeds
  exactly when the tag verifies. This is the standard idealisation of
  authenticated encryption (the spec accepts negligible collision
  probability).
-/

namespace Klient

/-- Symbolic model of a Fernet token: nonce (the per-call IV), body (the
enciphered plaintext) and the authentication tag, which binds the signing
key, the nonce and the body. -/
structure FernetToken where
  nonce : Nat
  body : String
  tag : Nat × Nat × String
  deriving DecidableEq, Repr

/-- Contents of the credential config file: either a well-formed Fernet
token or arbitrary raw bytes (a corrupted or foreign file). -/
inductive Blob where
  | tok (t : FernetToken)
  | raw (bytes : List Nat)
  deriving DecidableEq, Repr

/-- Fernet encryption under key `key` with fresh nonce `nonce`:
the tag authenticates key, nonce and body. -/
def fernetEncrypt (key nonce : Nat) (s : String) : FernetToken :=
  ⟨nonce, s, (key, nonce, s)⟩

/-- Fernet decryption: verify the authentication tag against the supplied
key and the token fields; fail (`none`, modelling InvalidToken) on any
mismatch or on a blob that is not a well-formed token. -/
def fernetDecrypt (key : Nat) : Blob → Option String
  | .tok t => if t.tag = (key, t.nonce, t.body) then some t.body else none
  | .raw _ => none

/-- The filesystem state the subsystem touches: the SecretKey file
(ENCRYPTION_KEY_FILE) and the credential config file (CONFIG_FILE),
each either absent or holding its contents. -/
structure World where
  keyFile : Option Nat
  configFile : Option Blob
  deriving DecidableEq, Repr

/-- Embeds load_key (with generate_key inlined): if the key file exists
its bytes are returned verbatim; otherwise a fresh random key (the
`fresh` parameter models Fernet.generate_key) is written to the key file
and returned. -/
def load_key (w : World) (fresh : Nat) : Nat × World :=
  match w.keyFile with
  | some k => (k, w)
  | none => (fresh, { w with keyFile := some fresh })

/-- Embeds encrypt_api_key: load the key (creating it if absent) and
seal the API key into a Fernet token; `nonce` models the per-call IV. -/
def encrypt_api_key (w : World) (fresh nonce : Nat) (apiKey : String) :
    Blob × World :=
  let kw := load_key w fresh
  (Blob.tok (fernetEncrypt kw.1 nonce apiKey), kw.2)

/-- Embeds decrypt_api_key: load the key (creating it if absent) and
attempt Fernet decryption of the blob. -/
def decrypt_api_key (w : World) (fresh : Nat) (blob : Blob) :
    Option String × World :=
  let kw := load_key w fresh
  (fernetDecrypt kw.1 blob, kw.2)

/-- Outcome of one HTTP request: a response with status code and body
text, or a transport-level RequestException with a message. -/
inductive HttpOutcome where
  | status (code : Nat) (text : String)
  | exn (msg : String)
  deriving DecidableEq, Repr

/-- Embeds verify_api_key: POST to the verify endpoint; true exactly on
status 200, false on any other status; on a RequestException print a
diagnostic and return false. The second component is the list of
diagnostics printed by this call. -/
def verify_api_key : HttpOutcome → Bool × List String
  | .status code _ => if code = 200 then (true, []) else (false, [])
  | .exn msg => (false, ["Error during API key verification: " ++ msg])

/-! ## C3, C4, C5, C9: vault, verifier and keystore properties -/

/-- C9: Keystore idempotence. A second load_key call, without the key
file being deleted in between, returns the identical key bytes and
leaves the world unchanged; the first call creates the file with the
fresh key when it was absent, and when the file exists its stored bytes
are returned verbatim. -/
theorem load_key_idempotent (w : World) (f1 f2 : Nat) :
    (load_key (load_key w f1).2 f2).1 = (load_key w f1).1 ∧
    (load_key (load_key w f1).2 f2).2 = (load_key w f1).2 ∧
    (w.keyFile = none → (load_key w f1).2.keyFile = some f1) ∧
    (∀ k, w.keyFile = some k → (load_key w f1).1 = k ∧ (load_key w f1).2 = w) := by
  cases h : w.keyFile <;> simp [load_key, h]

/-- Witness for C9 at a concrete world with the key file absent. -/
theorem load_key_idempotent_witness :
    (load_key (load_key ⟨none, none⟩ 7).2 9).1 = (load_key ⟨none, none⟩ 7).1 ∧
    (load_key (load_key ⟨none, none⟩ 7).2 9).2 = (load_key ⟨none, none⟩ 7).2 ∧
    (World.keyFile ⟨none, none⟩ = none →
      (load_key ⟨none, none⟩ 7).2.keyFile = some 7) ∧
    (∀ k, World.keyFile ⟨none, none⟩ = some k →
      (load_key ⟨none, none⟩ 7).1 = k ∧ (load_key ⟨none, none⟩ 7).2 = ⟨none, none⟩) :=
  load_key_idempotent ⟨none, none⟩ 7 9

/-- C3: Round-trip. For every non-empty string s, decrypting the result
of encrypting s returns s, when the same SecretKey file contents are in
force for both operations (the world produced by encrypt_api_key is the
one decrypt_api_key reads, and the key file is never rewritten in
between). The claim holds for every string; the non-emptiness hypothesis
of the claim is carried along. -/
theorem encrypt_then_decrypt (w : World) (fresh nonce : Nat) (s : String)
    (hs : s ≠ "") :
    (decrypt_api_key (encrypt_api_key w fresh nonce s).2 fresh
      (encrypt_api_key w fresh nonce s).1).1 = some s := by
  cases h : w.keyFile <;>
    simp [decrypt_api_key, encrypt_api_key, load_key, fernetDecrypt,
      fernetEncrypt, h]

/-- Witness for C3 at a concrete non-empty string. -/
theorem encrypt_then_decrypt_witness :
    (decrypt_api_key (encrypt_api_key ⟨some 5, none⟩ 0 3 "good-key").2 0
      (encrypt_api_key ⟨some 5, none⟩ 0 3 "good-key").1).1 = some "good-key" :=
  encrypt_then_decrypt ⟨some 5, none⟩ 0 3 "good-key" (by decide)

/-- C4: Tamper and wrong-key rejection. Decrypting a sealed token with a
different key fails; altering any single field of the token (nonce, body
or tag) makes decryption fail; a blob that is not a well-formed token
fails; and decryption never returns a silently-wrong key: whenever
decryption under key k succeeds with plaintext p, the blob is exactly an
authentic seal of p under k. -/
theorem fernet_tamper_and_wrong_key (k k2 n : Nat) (s : String) :
    (k2 ≠ k → fernetDecrypt k2 (.tok (fernetEncrypt k n s)) = none) ∧
    (∀ n2, n2 ≠ n → fernetDecrypt k (.tok ⟨n2, s, (k, n, s)⟩) = none) ∧
    (∀ s2, s2 ≠ s → fernetDecrypt k (.tok ⟨n, s2, (k, n, s)⟩) = none) ∧
    (∀ tg, tg ≠ (k, n, s) → fernetDecrypt k (.tok ⟨n, s, tg⟩) = none) ∧
    (∀ bs, fernetDecrypt k (.raw bs) = none) ∧
    (∀ t p, fernetDecrypt k (.tok t) = some p → t = fernetEncrypt k t.nonce p) := by
  refine ⟨?_, ?_, ?_, ?_, ?_, ?_⟩
  · intro hk
    show (if ((k, n, s) : Nat × Nat × String) = (k2, n, s) then some s else none) = none
    rw [if_neg]
    intro h
    exact hk (congrArg (fun x => x.1) h).symm
  · intro n2 hn
    show (if ((k, n, s) : Nat × Nat × String) = (k, n2, s) then some s else none) = none
    rw [if_neg]
    intro h
    exact hn (congrArg (fun x => x.2.1) h).symm
  · intro s2 hs
    show (if ((k, n, s) : Nat × Nat × String) = (k, n, s2) then some s2 else none) = none
    rw [if_neg]
    intro h
    exact hs (congrArg (fun x => x.2.2) h).symm
  · intro tg htg
    show (if tg = ((k, n, s) : Nat × Nat × String) then some s else none) = none
    rw [if_neg htg]
  · intro bs
    rfl
  · intro t p hdec
    cases t with
    | mk nn bb tg =>
      simp only [fernetDecrypt] at hdec
      split at hdec
      next htag =>
        injection hdec with hbp
        subst hbp
        simp [fernetEncrypt, htag]
      next => cases hdec

/-- Witness for C4 at concrete keys, nonce and plaintext. -/
theorem fernet_tamper_and_wrong_key_witness :
    fernetDecrypt 2 (.tok (fernetEncrypt 1 0 "s")) = none ∧
    fernetDecrypt 1 (.tok ⟨9, "s", (1, 0, "s")⟩) = none ∧
    fernetDecrypt 1 (.tok ⟨0, "x", (1, 0, "s")⟩) = none ∧
    fernetDecrypt 1 (.tok ⟨0, "s", (3, 3, "s")⟩) = none ∧
    fernetDecrypt 1 (.raw [0, 1]) = none ∧
    (fernetDecrypt 1 (.tok ⟨0, "s", (1, 0, "s")⟩) = some "s" →
      (⟨0, "s", (1, 0, "s")⟩ : FernetToken) = fernetEncrypt 1 0 "s") := by
  have h := fernet_tamper_and_wrong_key 1 2 0 "s"
  exact ⟨h.1 (by decide), h.2.1 9 (by decide), h.2.2.1 "x" (by decide),
    h.2.2.2.1 (3, 3, "s") (by decide), h.2.2.2.2.1 [0, 1],
    h.2.2.2.2.2 ⟨0, "s", (1, 0, "s")⟩ "s"⟩

/-- C5: verify_api_key returns true exactly when the verification
endpoint responds with HTTP status 200; any other status yields false;
a network-level request failure yields false (indistinguishable from
rejection by the return value alone) together with a printed
diagnostic. -/
theorem verify_api_key_spec (resp : HttpOutcome) :
    ((verify_api_key resp).1 = true ↔ ∃ t, resp = .status 200 t) ∧
    (∀ c t, resp = .status c t → c ≠ 200 → verify_api_key resp = (false, [])) ∧
    (∀ m, resp = .exn m →
      (verify_api_key resp).1 = false ∧ (verify_api_key resp).2 ≠ []) := by
  refine ⟨?_, ?_, ?_⟩
  · cases resp with
    | status c t =>
      by_cases h : c = 200 <;> simp [verify_api_key, h]
    | exn m => simp [verify_api_key]
  · intro c t hr hc
    subst hr
    simp [verify_api_key, hc]
  · intro m hr
    subst hr
    simp [verify_api_key]

/-- Witness for C5 at concrete outcomes. -/
theorem verify_api_key_spec_witness :
    ((verify_api_key (.exn "timeout")).1 = true ↔
      ∃ t, HttpOutcome.exn "timeout" = .status 200 t) ∧
    (∀ c t, HttpOutcome.exn "timeout" = .status c t → c ≠ 200 →
      verify_api_key (.exn "timeout") = (false, [])) ∧
    (∀ m, HttpOutcome.exn "timeout" = .exn m →
      (verify_api_key (.exn "timeout")).1 = false ∧
      (verify_api_key (.exn "timeout")).2 ≠ []) :=
  verify_api_key_spec (.exn "timeout")

/-! ## The credential resolver (handle_api_key) -/

/-- Terminal outcome of a resolver run: a resolved key, a propagated
filesystem error while persisting (the open of CONFIG_FILE for writing
raised), or `stuck` when the scripted prompts or verifier responses ran
out while the source loop would continue. -/
inductive Outcome where
  | resolved (key : String)
  | ioError
  | stuck
  deriving DecidableEq, Repr

/-- Observable trace of one handle_api_key run: the outcome, the final
filesystem state, how many interactive prompts were shown, the sequence
of blobs written to CONFIG_FILE, the verify_api_key calls made (key
asked about, boolean answer) in chronological order, and how many
invalid-key diagnostics handle_api_key printed. -/
structure RunResult where
  outcome : Outcome
  world : World
  promptCount : Nat
  writes : List Blob
  verifCalls : List (String × Bool)
  diags : Nat
  deriving DecidableEq, Repr

/-- Embeds the while-True prompt loop of handle_api_key. Each iteration
reads one scripted prompt answer and feeds one scripted HTTP outcome to
verify_api_key. On acceptance, when the CONFIG_FILE open for writing
succeeds (`writeOk`), the key is sealed via encrypt_api_key and written,
and the key is returned; when the open fails the OSError propagates
(`ioError`) before encrypt_api_key runs. On rejection a diagnostic is
printed and the loop repeats. -/
def promptLoop (w : World) (fresh nonce : Nat) (writeOk : Bool) :
    List String → List HttpOutcome → RunResult
  | [], _ => ⟨Outcome.stuck, w, 0, [], [], 0⟩
  | _ :: _, [] => ⟨Outcome.stuck, w, 1, [], [], 0⟩
  | p :: ps, resp :: rs =>
    if (verify_api_key resp).1 then
      if writeOk then
        let ew := encrypt_api_key w fresh nonce p
        ⟨Outcome.resolved p, { ew.2 with configFile := some ew.1 }, 1,
          [ew.1], [(p, true)], 0⟩
      else
        ⟨Outcome.ioError, w, 1, [], [(p, true)], 0⟩
    else
      let r := promptLoop w fresh nonce writeOk ps rs
      ⟨r.outcome, r.world, r.promptCount + 1, r.writes,
        (p, false) :: r.verifCalls, r.diags + 1⟩

/-- Embeds handle_api_key. If CONFIG_FILE exists its blob is read and
decrypt_api_key is attempted (which loads, and may create, the secret
key). On decryption success the key is verified: acceptance returns it
with no prompt and no write; rejection raises ValueError, which the
enclosing except catches, printing a diagnostic and falling into the
prompt loop. A decryption failure is caught by the same except with the
same diagnostic. When CONFIG_FILE is absent the loop is entered
directly. -/
def handle_api_key (w : World) (fresh nonce : Nat) (writeOk : Bool)
    (prompts : List String) (resps : List HttpOutcome) : RunResult :=
  match w.configFile with
  | none => promptLoop w fresh nonce writeOk prompts resps
  | some blob =>
    let d := decrypt_api_key w fresh blob
    match d.1, resps with
    | none, _ =>
      let r := promptLoop d.2 fresh nonce writeOk prompts resps
      { r with diags := r.diags + 1 }
    | some _, [] => ⟨Outcome.stuck, d.2, 0, [], [], 0⟩
    | some apiKey, resp :: rs =>
      if (verify_api_key resp).1 then
        ⟨Outcome.resolved apiKey, d.2, 0, [], [(apiKey, true)], 0⟩
      else
        let r := promptLoop d.2 fresh nonce writeOk prompts rs
        ⟨r.outcome, r.world, r.promptCount, r.writes,
          (apiKey, false) :: r.verifCalls, r.diags + 1⟩

/-- Every blob the prompt loop writes is an authentic seal of a key for
which verify_api_key answered true during the same run. -/
theorem promptLoop_writes_verified (fresh nonce : Nat) (writeOk : Bool) :
    ∀ (prompts : List String) (resps : List HttpOutcome) (w : World) (b : Blob),
      b ∈ (promptLoop w fresh nonce writeOk prompts resps).writes →
      ∃ p k n, b = Blob.tok (fernetEncrypt k n p) ∧
        (p, true) ∈ (promptLoop w fresh nonce writeOk prompts resps).verifCalls := by
  intro prompts
  induction prompts with
  | nil => intro resps w b; simp [promptLoop]
  | cons p ps ih =>
    intro resps w b
    cases resps with
    | nil => simp [promptLoop]
    | cons resp rs =>
      simp only [promptLoop]
      by_cases hv : (verify_api_key resp).1 <;> simp only [hv, if_true, if_false]
      · cases hw : writeOk
        · simp
        · simp only [if_true]
          intro hb
          simp only [List.mem_singleton] at hb
          exact ⟨p, (load_key w fresh).1, nonce, by simp [hb, encrypt_api_key],
            by simp⟩
      · intro hb
        obtain ⟨q, k, n, hq, hmem⟩ := ih rs w b hb
        exact ⟨q, k, n, hq, List.mem_cons_of_mem _ hmem⟩

/-- C1: No unverified input is ever persisted. In every run of
handle_api_key, every blob written to CONFIG_FILE is an authentic seal
of a key on which verify_api_key was called and returned true during
that run. -/
theorem handle_api_key_writes_verified (w : World) (fresh nonce : Nat)
    (writeOk : Bool) (prompts : List String) (resps : List HttpOutcome)
    (b : Blob)
    (hb : b ∈ (handle_api_key w fresh nonce writeOk prompts resps).writes) :
    ∃ p k n, b = Blob.tok (fernetEncrypt k n p) ∧
      (p, true) ∈ (handle_api_key w fresh nonce writeOk prompts resps).verifCalls := by
  unfold handle_api_key at hb ⊢
  cases hc : w.configFile with
  | none =>
    simp only [hc] at hb ⊢
    exact promptLoop_writes_verified fresh nonce writeOk prompts resps w b hb
  | some blob =>
    simp only [hc] at hb ⊢
    cases hd : (decrypt_api_key w fresh blob).1 with
    | none =>
      simp only [hd] at hb ⊢
      exact promptLoop_writes_verified fresh nonce writeOk prompts resps _ b hb
    | some apiKey =>
      cases resps with
      | nil => simp [hd] at hb
      | cons resp rs =>
        simp only [hd] at hb ⊢
        by_cases hv : (verify_api_key resp).1 <;>
          simp only [hv, if_true, if_false] at hb ⊢
        · simp at hb
        · obtain ⟨q, k, n, hq, hmem⟩ :=
            promptLoop_writes_verified fresh nonce writeOk prompts rs _ b hb
          exact ⟨q, k, n, hq, List.mem_cons_of_mem _ hmem⟩

/-- Witness for C1: a concrete run that persists the single accepted
key. -/
theorem handle_api_key_writes_verified_witness :
    ∃ p k n,
      Blob.tok (fernetEncrypt 4 5 "newkey") = Blob.tok (fernetEncrypt k n p) ∧
      (p, true) ∈ (handle_api_key ⟨some 4, none⟩ 0 5 true ["newkey"]
        [.status 200 "ok"]).verifCalls :=
  handle_api_key_writes_verified ⟨some 4, none⟩ 0 5 true ["newkey"]
    [.status 200 "ok"] (Blob.tok (fernetEncrypt 4 5 "newkey")) (by decide)

/-- C2: Resolver convergence. First conjunct: when the credential file
holds an authentic seal of s under the stored key and the verifier
accepts, handle_api_key returns s with zero prompts, no write, and the
world unchanged. Second conjunct: when no credential is cached and the
scripted verifier answers false, false, true for three successive
prompts, handle_api_key returns the third entered key after exactly
three prompts and persists its seal to the credential file. -/
theorem handle_api_key_convergence :
    (∀ (w : World) (k n fresh nonce : Nat) (s : String) (writeOk : Bool)
        (prompts : List String) (resp : HttpOutcome) (rs : List HttpOutcome),
      w.keyFile = some k →
      w.configFile = some (.tok (fernetEncrypt k n s)) →
      (verify_api_key resp).1 = true →
      handle_api_key w fresh nonce writeOk prompts (resp :: rs) =
        ⟨Outcome.resolved s, w, 0, [], [(s, true)], 0⟩) ∧
    (∀ (w : World) (k fresh nonce : Nat) (p1 p2 p3 : String)
        (ps : List String) (r1 r2 r3 : HttpOutcome) (rs : List HttpOutcome),
      w.keyFile = some k → w.configFile = none →
      (verify_api_key r1).1 = false → (verify_api_key r2).1 = false →
      (verify_api_key r3).1 = true →
      handle_api_key w fresh nonce true (p1 :: p2 :: p3 :: ps)
          (r1 :: r2 :: r3 :: rs) =
        ⟨Outcome.resolved p3,
          { w with configFile := some (Blob.tok (fernetEncrypt k nonce p3)) },
          3, [Blob.tok (fernetEncrypt k nonce p3)],
          [(p1, false), (p2, false), (p3, true)], 2⟩) := by
  constructor
  · intro w k n fresh nonce s writeOk prompts resp rs hk hc hv
    simp [handle_api_key, decrypt_api_key, load_key, hk, hc, fernetDecrypt,
      fernetEncrypt, hv]
  · intro w k fresh nonce p1 p2 p3 ps r1 r2 r3 rs hk hc hv1 hv2 hv3
    simp [handle_api_key, hc, promptLoop, hv1, hv2, hv3, encrypt_api_key,
      load_key, hk]

/-- Witness for C2: both scenarios at concrete inputs. -/
theorem handle_api_key_convergence_witness :
    handle_api_key ⟨some 4, some (.tok (fernetEncrypt 4 2 "good-key"))⟩ 0 9
        true [] [.status 200 "ok"] =
      ⟨Outcome.resolved "good-key",
        ⟨some 4, some (.tok (fernetEncrypt 4 2 "good-key"))⟩,
        0, [], [("good-key", true)], 0⟩ ∧
    handle_api_key ⟨some 4, none⟩ 0 9 true ["a", "b", "c"]
        [.status 401 "no", .exn "down", .status 200 "ok"] =
      ⟨Outcome.resolved "c", ⟨some 4, some (.tok (fernetEncrypt 4 9 "c"))⟩,
        3, [Blob.tok (fernetEncrypt 4 9 "c")],
        [("a", false), ("b", false), ("c", true)], 2⟩ :=
  ⟨handle_api_key_convergence.1 ⟨some 4, some (.tok (fernetEncrypt 4 2 "good-key"))⟩
      4 2 0 9 "good-key" true [] (.status 200 "ok") [] rfl rfl (by decide),
    handle_api_key_convergence.2 ⟨some 4, none⟩ 4 0 9 "a" "b" "c" []
      (.status 401 "no") (.exn "down") (.status 200 "ok") [] rfl rfl
      (by decide) (by decide) (by decide)⟩

/-- C6: Decryption-failure recovery. Whenever the cached credential file
exists but decrypt_api_key fails on its contents, handle_api_key
neither crashes nor propagates the error: the run is exactly the prompt
loop on the post-load world, plus one invalid-key diagnostic — the same
shape as when the verifier rejects the cached key. -/
theorem handle_api_key_decrypt_failure (w : World) (fresh nonce : Nat)
    (writeOk : Bool) (blob : Blob) (prompts : List String)
    (resps : List HttpOutcome)
    (hc : w.configFile = some blob)
    (hd : (decrypt_api_key w fresh blob).1 = none) :
    handle_api_key w fresh nonce writeOk prompts resps =
      { promptLoop (decrypt_api_key w fresh blob).2 fresh nonce writeOk
          prompts resps with
        diags := (promptLoop (decrypt_api_key w fresh blob).2 fresh nonce
          writeOk prompts resps).diags + 1 } := by
  cases resps <;> simp [handle_api_key, hc, hd]

/-- Witness for C6: a corrupted credential file of raw bytes. -/
theorem handle_api_key_decrypt_failure_witness :
    handle_api_key ⟨some 0, some (.raw [7])⟩ 0 0 true [] [] =
      { promptLoop (decrypt_api_key ⟨some 0, some (.raw [7])⟩ 0 (.raw [7])).2
          0 0 true [] [] with
        diags := (promptLoop (decrypt_api_key ⟨some 0, some (.raw [7])⟩ 0
          (.raw [7])).2 0 0 true [] []).diags + 1 } :=
  handle_api_key_decrypt_failure ⟨some 0, some (.raw [7])⟩ 0 0 true
    (.raw [7]) [] [] rfl rfl

/-- C7 as stated fails on the code: when the open of CONFIG_FILE for
writing raises a filesystem error after the prompted key was accepted,
handle_api_key does not return the verified key — the error propagates
(there is no try/except around the persisting write at src/main.py
lines 82-83). Concrete run: cached file absent, prompt answer key1,
verifier accepts, write fails. -/
theorem handle_api_key_persist_failure_counterexample :
    (handle_api_key ⟨some 0, none⟩ 0 0 false ["key1"]
        [.status 200 "ok"]).outcome = Outcome.ioError ∧
    (handle_api_key ⟨some 0, none⟩ 0 0 false ["key1"]
        [.status 200 "ok"]).outcome ≠ Outcome.resolved "key1" := by
  decide

/-- C7 amended: if, after a prompted key is accepted by the verifier,
opening the config file for writing fails with a filesystem error, the
error propagates out of handle_api_key: the run aborts without
returning the verified key, and nothing is persisted (the verify call
on the accepted key did happen). -/
theorem handle_api_key_persist_failure (w : World) (fresh nonce : Nat)
    (p : String) (ps : List String) (resp : HttpOutcome)
    (rs : List HttpOutcome)
    (hc : w.configFile = none) (hv : (verify_api_key resp).1 = true) :
    (handle_api_key w fresh nonce false (p :: ps) (resp :: rs)).outcome
        = Outcome.ioError ∧
    (handle_api_key w fresh nonce false (p :: ps) (resp :: rs)).writes = [] ∧
    (handle_api_key w fresh nonce false (p :: ps) (resp :: rs)).verifCalls
        = [(p, true)] := by
  simp [handle_api_key, hc, promptLoop, hv]

/-- Witness for the amended C7 at a concrete run. -/
theorem handle_api_key_persist_failure_witness :
    (handle_api_key ⟨some 0, none⟩ 0 0 false ["key1"]
        [.status 200 "ok"]).outcome = Outcome.ioError ∧
    (handle_api_key ⟨some 0, none⟩ 0 0 false ["key1"]
        [.status 200 "ok"]).writes = [] ∧
    (handle_api_key ⟨some 0, none⟩ 0 0 false ["key1"]
        [.status 200 "ok"]).verifCalls = [("key1", true)] :=
  handle_api_key_persist_failure ⟨some 0, none⟩ 0 0 "key1" []
    (.status 200 "ok") [] rfl (by decide)

/-! ## The API layer: upload_file and the CLI command guards -/

/-- Side effects a command performs, beyond its printed output: how many
interactive prompts it shows, how many network requests it issues, and
how many times it reads the credential or secret-key files. -/
structure CmdEffects where
  prompts : Nat
  netCalls : Nat
  credFileReads : Nat
  deriving DecidableEq, Repr

/-- Embeds upload_file. It first verifies the key (one network call);
rejection prints an invalid-key message and raises typer.Exit(1). Then
the file is checked; absence raises typer.Exit(1). The upload POST (a
second network call) follows: on status 200 the success table is
printed and the URL copied; on any other status the server error text
is printed and the function returns normally (process exit code 0); on
a RequestException the message is printed and typer.Exit(1) is raised.
Returns (exit code, printed lines, effects). -/
def upload_file (fileExists : Bool) (verifyResp uploadResp : HttpOutcome) :
    Nat × List String × CmdEffects :=
  let v := verify_api_key verifyResp
  if !v.1 then
    (1, v.2 ++ ["Error: Invalid API key."], ⟨0, 1, 0⟩)
  else if !fileExists then
    (1, ["Error: The file does not exist."], ⟨0, 1, 0⟩)
  else
    match uploadResp with
    | .status code text =>
      if code = 200 then
        (0, ["File Upload Successful!", "URL copied to clipboard!"], ⟨0, 2, 0⟩)
      else
        (0, ["Error " ++ toString code ++ ": " ++ text], ⟨0, 2, 0⟩)
    | .exn msg => (1, ["Error: " ++ msg], ⟨0, 2, 0⟩)

/-- Python truthiness of the api_key option: None and the empty string
are both falsy, so `if not api_key` fires for either. -/
def isBlank : Option String → Bool
  | none => true
  | some s => s.isEmpty

/-- Embeds the upload command: a missing or empty --api-key prints an
error and exits with code 1 before any other work; otherwise the upload
proceeds via upload_file. -/
def upload (apiKey : Option String) (fileExists : Bool)
    (verifyResp uploadResp : HttpOutcome) : Nat × List String × CmdEffects :=
  if isBlank apiKey then
    (1, ["Error: API key is required."], ⟨0, 0, 0⟩)
  else
    let r := upload_file fileExists verifyResp uploadResp
    (r.1, "Uploading file..." :: r.2.1, r.2.2)

/-- Embeds the list_files command: a missing or empty --api-key prints
an error and exits with code 1; otherwise one GET request is issued and
its outcome rendered (non-200 prints the server error and returns
normally; a RequestException exits with code 1). -/
def list_files (apiKey : Option String) (resp : HttpOutcome)
    (filesEmpty : Bool) : Nat × List String × CmdEffects :=
  if isBlank apiKey then
    (1, ["Error: API key is required."], ⟨0, 0, 0⟩)
  else
    match resp with
    | .status code text =>
      if code = 200 then
        (0, [if filesEmpty then "No files found for the user." else "User Files"],
          ⟨0, 1, 0⟩)
      else
        (0, ["Error " ++ toString code ++ ": " ++ text], ⟨0, 1, 0⟩)
    | .exn msg => (1, ["Error: " ++ msg], ⟨0, 1, 0⟩)

/-- Embeds the search command: a missing or empty --api-key prints an
error and exits with code 1; otherwise one GET request with the query
and limit is issued and its outcome rendered. -/
def search (query : String) (apiKey : Option String) (lim : Nat)
    (resp : HttpOutcome) (resultsEmpty : Bool) :
    Nat × List String × CmdEffects :=
  if isBlank apiKey then
    (1, ["Error: API key is required."], ⟨0, 0, 0⟩)
  else
    match resp with
    | .status code text =>
      if code = 200 then
        (0, [if resultsEmpty then "No matching files found."
             else "Search Results, query " ++ query ++ ", limit " ++ toString lim],
          ⟨0, 1, 0⟩)
      else
        (0, ["Error " ++ toString code ++ ": " ++ text], ⟨0, 1, 0⟩)
    | .exn msg => (1, ["Error: " ++ msg], ⟨0, 1, 0⟩)

/-- C8 as stated fails on the code: when the upload POST returns a
non-200 status, upload_file prints the server error text but does not
raise typer.Exit — the command completes with exit code 0, not 1 (there
is no raise in the non-200 branch at src/main.py lines 119-124).
Concrete run: verify accepted, file present, upload answered 401. -/
theorem upload_nonzero_exit_counterexample :
    (upload_file true (.status 200 "") (.status 401 "Unauthorized")).1 = 0 ∧
    "Error 401: Unauthorized" ∈
      (upload_file true (.status 200 "") (.status 401 "Unauthorized")).2.1 := by
  decide

/-- C8 amended: when the verify step rejects the key, upload_file exits
with code 1 printing an invalid-key message (not the server text); when
the upload POST returns a non-200 status, the server error text is
printed but the command completes with exit code 0; when the upload
POST fails with a network exception, the message is printed and the
exit code is 1. -/
theorem upload_file_error_exits (fe : Bool) (vr ur : HttpOutcome) :
    ((verify_api_key vr).1 = false → (upload_file fe vr ur).1 = 1 ∧
      "Error: Invalid API key." ∈ (upload_file fe vr ur).2.1) ∧
    (∀ c t, (verify_api_key vr).1 = true → fe = true → ur = .status c t →
      c ≠ 200 → (upload_file fe vr ur).1 = 0 ∧
        ("Error " ++ toString c ++ ": " ++ t) ∈ (upload_file fe vr ur).2.1) ∧
    (∀ m, (verify_api_key vr).1 = true → fe = true → ur = .exn m →
      (upload_file fe vr ur).1 = 1 ∧
        ("Error: " ++ m) ∈ (upload_file fe vr ur).2.1) := by
  refine ⟨?_, ?_, ?_⟩
  · intro hv
    simp [upload_file, hv]
  · intro c t hv hfe hur hc
    subst hfe hur
    simp [upload_file, hv, hc]
  · intro m hv hfe hur
    subst hfe hur
    simp [upload_file, hv]

/-- Witness for the amended C8 at concrete runs. -/
theorem upload_file_error_exits_witness :
    ((verify_api_key (.status 200 "")).1 = false →
      (upload_file true (.status 200 "") (.status 401 "Unauthorized")).1 = 1 ∧
      "Error: Invalid API key." ∈
        (upload_file true (.status 200 "") (.status 401 "Unauthorized")).2.1) ∧
    (∀ c t, (verify_api_key (.status 200 "")).1 = true → true = true →
      HttpOutcome.status 401 "Unauthorized" = .status c t → c ≠ 200 →
      (upload_file true (.status 200 "") (.status 401 "Unauthorized")).1 = 0 ∧
        ("Error " ++ toString c ++ ": " ++ t) ∈
          (upload_file true (.status 200 "") (.status 401 "Unauthorized")).2.1) ∧
    (∀ m, (verify_api_key (.status 200 "")).1 = true → true = true →
      HttpOutcome.status 401 "Unauthorized" = .exn m →
      (upload_file true (.status 200 "") (.status 401 "Unauthorized")).1 = 1 ∧
        ("Error: " ++ m) ∈
          (upload_file true (.status 200 "") (.status 401 "Unauthorized")).2.1) :=
  upload_file_error_exits true (.status 200 "") (.status 401 "Unauthorized")

/-- C10: No CLI command ever invokes the Credential Resolver: every
command run shows zero interactive prompts, whatever its arguments.
And for each command taking --api-key (upload, list_files, search), an
omitted or empty key makes the command print an error and exit with
code 1 with no prompt, no network call, and no read of the credential
or key files. -/
theorem commands_never_resolve (ak : Option String) (fe fEmpty rEmpty : Bool)
    (vr ur resp : HttpOutcome) (q : String) (lim : Nat) :
    ((upload ak fe vr ur).2.2.prompts = 0 ∧
     (list_files ak resp fEmpty).2.2.prompts = 0 ∧
     (search q ak lim resp rEmpty).2.2.prompts = 0) ∧
    (isBlank ak = true →
      upload ak fe vr ur = (1, ["Error: API key is required."], ⟨0, 0, 0⟩) ∧
      list_files ak resp fEmpty =
        (1, ["Error: API key is required."], ⟨0, 0, 0⟩) ∧
      search q ak lim resp rEmpty =
        (1, ["Error: API key is required."], ⟨0, 0, 0⟩)) := by
  constructor
  · refine ⟨?_, ?_, ?_⟩
    · cases hb : isBlank ak <;> simp [upload, hb, upload_file]
      cases hv : (verify_api_key vr).1 <;> cases fe <;> cases ur <;>
        simp [hv] <;> split <;> simp
    · cases hb : isBlank ak <;> simp [list_files, hb]
      cases resp <;> simp <;> split <;> simp
    · cases hb : isBlank ak <;> simp [search, hb]
      cases resp <;> simp <;> split <;> simp
  · intro hb
    simp [upload, list_files, search, hb]

/-- Witness for C10 with the api key omitted. -/
theorem commands_never_resolve_witness :
    ((upload none true (.status 200 "") (.status 200 "")).2.2.prompts = 0 ∧
     (list_files none (.status 200 "") true).2.2.prompts = 0 ∧
     (search "q" none 5 (.status 200 "") true).2.2.prompts = 0) ∧
    (isBlank none = true →
      upload none true (.status 200 "") (.status 200 "") =
        (1, ["Error: API key is required."], ⟨0, 0, 0⟩) ∧
      list_files none (.status 200 "") true =
        (1, ["Error: API key is required."], ⟨0, 0, 0⟩) ∧
      search "q" none 5 (.status 200 "") true =
        (1, ["Error: API key is required."], ⟨0, 0, 0⟩)) :=
  commands_never_resolve none true true true (.status 200 "")
    (.status 200 "") (.status 200 "") "q" 5

end Klient
